import Mathlib

/-!
# Verification of the bank-statement deduplication pipeline

A shallow embedding of the core of `llm-bank-parser` (the modules
`src/data_processor.py`, `src/schemas.py` and the per-file processing of
`src/main.py`) together with proofs of the behavioural properties stated in
the specification.

Modelling conventions:
* Python `float` values are modelled by their decimal rendering under `str`
  (CPython's `repr`/`str` is injective on floats, and the pipeline only ever
  compares floats and interpolates them into strings, never does arithmetic).
* Machine words inside SHA-256 are `Nat` reduced modulo `2 ^ 32` explicitly.
* The persisted CSV store is modelled by `Option String`: `none` when the
  file does not exist, `some content` for its textual content.  The external
  `pandas` reader is modelled by a simple CSV parser restricted to unquoted
  fields, which is all the pipeline ever writes.
* Python's try/except blocks become `Except` values that are matched on.
-/

/-- A CPython `float`, modelled by its decimal rendering under `str`
(injective on floats, e.g. `str(0.0) = "0.0"`); the pipeline only ever
compares floats for equality and interpolates them into strings. -/
structure PyFloat where
  str : String
deriving DecidableEq

/-- The Python float `0.0`, whose `str` rendering is `"0.0"`. -/
def pyZero : PyFloat := ⟨"0.0"⟩

/-- `src/schemas.py`: `Transaction` — one bank transaction. -/
structure Transaction where
  date : String
  description : String
  debit : Option PyFloat
  credit : Option PyFloat
  balance : Option PyFloat
  reference : Option String
deriving DecidableEq

/-- `src/schemas.py`: `BankStatement` — account metadata plus transactions. -/
structure BankStatement where
  account_holder_name : String
  bank_name : String
  account_number : String
  sort_code : String
  statement_period : String
  transactions : List Transaction
deriving DecidableEq

/-! ## SHA-256 over `Nat` bytes -/

/-- Reduce a `Nat` to a 32-bit word. -/
def w32 (n : Nat) : Nat := n % 2 ^ 32

/-- Right rotation of a 32-bit word by `n` bits. -/
def rotr (n x : Nat) : Nat := w32 ((x >>> n) ||| (x <<< (32 - n)))

/-- Bitwise complement of a 32-bit word. -/
def not32 (x : Nat) : Nat := x ^^^ 0xffffffff

/-- SHA-256 `Ch` function. -/
def shaCh (x y z : Nat) : Nat := (x &&& y) ^^^ (not32 x &&& z)

/-- SHA-256 `Maj` function. -/
def shaMaj (x y z : Nat) : Nat := (x &&& y) ^^^ (x &&& z) ^^^ (y &&& z)

/-- SHA-256 `Σ₀`. -/
def bigSigma0 (x : Nat) : Nat := rotr 2 x ^^^ rotr 13 x ^^^ rotr 22 x

/-- SHA-256 `Σ₁`. -/
def bigSigma1 (x : Nat) : Nat := rotr 6 x ^^^ rotr 11 x ^^^ rotr 25 x

/-- SHA-256 `σ₀`. -/
def smallSigma0 (x : Nat) : Nat := rotr 7 x ^^^ rotr 18 x ^^^ (x >>> 3)

/-- SHA-256 `σ₁`. -/
def smallSigma1 (x : Nat) : Nat := rotr 17 x ^^^ rotr 19 x ^^^ (x >>> 10)

/-- The round constants of FIPS 180-4 (fractional parts of the cube roots of
the first 64 primes), written in decimal. -/
def shaK : List Nat :=
  [1116352408, 1899447441, 3049323471, 3921009573, 961987163, 1508970993,
   2453635748, 2870763221, 3624381080, 310598401, 607225278, 1426881987,
   1925078388, 2162078206, 2614888103, 3248222580, 3835390401, 4022224774,
   264347078, 604807628, 770255983, 1249150122, 1555081692, 1996064986,
   2554220882, 2821834349, 2952996808, 3210313671, 3336571891, 3584528711,
   113926993, 338241895, 666307205, 773529912, 1294757372, 1396182291,
   1695183700, 1986661051, 2177026350, 2456956037, 2730485921, 2820302411,
   3259730800, 3345764771, 3516065817, 3600352804, 4094571909, 275423344,
   430227734, 506948616, 659060556, 883997877, 958139571, 1322822218,
   1537002063, 1747873779, 1955562222, 2024104815, 2227730452, 2361852424,
   2428436474, 2756734187, 3204031479, 3329325298]

/-- Working state of the SHA-256 compression function (eight 32-bit words). -/
structure ShaState where
  a : Nat
  b : Nat
  c : Nat
  d : Nat
  e : Nat
  f : Nat
  g : Nat
  h : Nat
deriving DecidableEq

/-- The initial hash words of FIPS 180-4 (fractional parts of the square
roots of the first 8 primes), written in decimal. -/
def shaInit : ShaState :=
  ⟨1779033703, 3144134277, 1013904242, 2773480762,
   1359893119, 2600822924, 528734635, 1541459225⟩

/-- One SHA-256 round with round constant `k` and schedule word `w`. -/
def shaRound (s : ShaState) (k w : Nat) : ShaState :=
  let t1 := w32 (s.h + bigSigma1 s.e + shaCh s.e s.f s.g + k + w)
  let t2 := w32 (bigSigma0 s.a + shaMaj s.a s.b s.c)
  ⟨w32 (t1 + t2), s.a, s.b, s.c, w32 (s.d + t1), s.e, s.f, s.g⟩

/-- The first 16 schedule words of a 64-byte block (big-endian). -/
def blockWords (block : List Nat) : List Nat :=
  (List.range 16).map fun i =>
    (block.getD (4 * i) 0) <<< 24 ||| (block.getD (4 * i + 1) 0) <<< 16 |||
    (block.getD (4 * i + 2) 0) <<< 8 ||| block.getD (4 * i + 3) 0

/-- Extend 16 schedule words to 64. -/
def extendWords (ws : Array Nat) : Array Nat :=
  (List.range 48).foldl
    (fun ws i =>
      let t := i + 16
      ws.push (w32 (ws.getD (t - 16) 0 + smallSigma0 (ws.getD (t - 15) 0) +
                    ws.getD (t - 7) 0 + smallSigma1 (ws.getD (t - 2) 0))))
    ws

/-- SHA-256 compression of one 64-byte block into the running state. -/
def shaCompress (st : ShaState) (block : List Nat) : ShaState :=
  let ws := extendWords (Array.mk (blockWords block))
  let s := (List.zip shaK ws.toList).foldl (fun s kw => shaRound s kw.1 kw.2) st
  ⟨w32 (st.a + s.a), w32 (st.b + s.b), w32 (st.c + s.c), w32 (st.d + s.d),
   w32 (st.e + s.e), w32 (st.f + s.f), w32 (st.g + s.g), w32 (st.h + s.h)⟩

/-- The 8 big-endian bytes of a 64-bit length field. -/
def lenBytes (n : Nat) : List Nat :=
  [(n >>> 56) % 256, (n >>> 48) % 256, (n >>> 40) % 256, (n >>> 32) % 256,
   (n >>> 24) % 256, (n >>> 16) % 256, (n >>> 8) % 256, n % 256]

/-- SHA-256 padding: append `0x80`, zeros, and the 64-bit bit length. -/
def shaPad (msg : List Nat) : List Nat :=
  let len := msg.length
  let zeros := (64 - (len + 9) % 64) % 64
  msg ++ 0x80 :: (List.replicate zeros 0 ++ lenBytes (8 * len))

/-- Split a byte list into 64-byte chunks; the fuel argument (an upper bound
on the list length) makes the recursion structural. -/
def chunksAux : Nat → List Nat → List (List Nat)
  | 0, _ => []
  | _, [] => []
  | fuel + 1, b :: rest =>
    ((b :: rest).take 64) :: chunksAux fuel ((b :: rest).drop 64)

/-- Split a byte list into 64-byte chunks. -/
def chunks64 (l : List Nat) : List (List Nat) := chunksAux l.length l

/-- The 4 big-endian bytes of a 32-bit word. -/
def wordBytes (w : Nat) : List Nat :=
  [(w >>> 24) % 256, (w >>> 16) % 256, (w >>> 8) % 256, w % 256]

/-- SHA-256 digest (32 bytes) of a byte list. -/
def sha256Bytes (msg : List Nat) : List Nat :=
  let fin := (chunks64 (shaPad msg)).foldl shaCompress shaInit
  wordBytes fin.a ++ wordBytes fin.b ++ wordBytes fin.c ++ wordBytes fin.d ++
  wordBytes fin.e ++ wordBytes fin.f ++ wordBytes fin.g ++ wordBytes fin.h

/-- UTF-8 encoding of one character. -/
def utf8Bytes (c : Char) : List Nat :=
  let n := c.toNat
  if n < 0x80 then [n]
  else if n < 0x800 then
    [0xC0 ||| (n >>> 6), 0x80 ||| (n &&& 0x3F)]
  else if n < 0x10000 then
    [0xE0 ||| (n >>> 12), 0x80 ||| ((n >>> 6) &&& 0x3F), 0x80 ||| (n &&& 0x3F)]
  else
    [0xF0 ||| (n >>> 18), 0x80 ||| ((n >>> 12) &&& 0x3F),
     0x80 ||| ((n >>> 6) &&& 0x3F), 0x80 ||| (n &&& 0x3F)]

/-- UTF-8 encoding of a string, as `encode('utf-8')` does. -/
def strUtf8 (s : String) : List Nat := (s.toList.map utf8Bytes).flatten

/-- The sixteen lowercase hexadecimal digits, in value order. -/
def hexDigits : List Char := "0123456789abcdef".toList

/-- The two lowercase hex characters of one byte. -/
def byteHex (b : Nat) : List Char :=
  [hexDigits.getD ((b >>> 4) % 16) '0', hexDigits.getD (b % 16) '0']

/-- Lowercase hex rendering of a byte list, as `hexdigest()` does. -/
def hexdigest (bs : List Nat) : String := ⟨(bs.map byteHex).flatten⟩

/-- `hashlib.sha256(s.encode('utf-8')).hexdigest()`. -/
def sha256Hex (s : String) : String := hexdigest (sha256Bytes (strUtf8 s))

/-! ## Fingerprinting (`src/data_processor.py`, `create_transaction_hash`) -/

/-- Python's ASCII whitespace characters, as stripped by `str.strip()`
(the pipeline's descriptions are ASCII text). -/
def pyIsSpace (c : Char) : Bool :=
  c == ' ' || c == '\t' || c == '\n' || c == '\r' || c == '\x0b' || c == '\x0c'

/-- Model of Python `str.strip()`: drop whitespace from both ends. -/
def pyStrip (s : String) : String :=
  ⟨(((s.toList.dropWhile pyIsSpace).reverse.dropWhile pyIsSpace).reverse)⟩

/-- Model of Python `str.lower()` (on the ASCII range the pipeline uses). -/
def pyLower (s : String) : String := ⟨s.toList.map Char.toLower⟩

/-- Rendering of an optional float under an f-string: `None` renders as
`"None"`, a float as its `str`. -/
def pyOptFloatStr : Option PyFloat → String
  | none => "None"
  | some f => f.str

/-- `create_transaction_hash` line 31: `str(transaction.balance)` when the
balance is present, the literal `"0.0"` when it is `None`. -/
def balanceStr (t : Transaction) : String :=
  match t.balance with
  | some b => b.str
  | none => "0.0"

/-- `create_transaction_hash` lines 39–40: the `-reference` suffix is added
only when the reference is truthy (present and non-empty). -/
def referenceSuffix (t : Transaction) : String :=
  match t.reference with
  | some r => if r ≠ "" then "-" ++ r else ""
  | none => ""

/-- `src/data_processor.py` lines 15–42: `create_transaction_hash`. -/
def create_transaction_hash (account_number : String) (t : Transaction) : String :=
  let normalized_description := pyStrip (pyLower t.description)
  let hash_string :=
    account_number ++ "-" ++ t.date ++ "-" ++ normalized_description ++ "-" ++
    pyOptFloatStr t.debit ++ "-" ++ pyOptFloatStr t.credit ++ "-" ++ balanceStr t
  sha256Hex (hash_string ++ referenceSuffix t)

/-! ## The persisted CSV store and its pandas model -/

/-- One persisted ledger row, with the exact fields (and field order) of the
record dictionary built in `convert_statement_to_records` lines 133–147. -/
structure LedgerRecord where
  transaction_hash : String
  source_file : String
  account_holder : String
  bank_name : String
  account_number : String
  sort_code : String
  statement_period : String
  transaction_date : String
  description : String
  debit : Option PyFloat
  credit : Option PyFloat
  balance : Option PyFloat
  reference : Option String
deriving DecidableEq

/-- Errors raised by the modelled pandas CSV reader. -/
inductive PdError where
  | emptyData
  | parserError
deriving DecidableEq

/-- Split a character list at every occurrence of `sep`. -/
def splitChar (sep : Char) : List Char → List (List Char)
  | [] => [[]]
  | c :: rest =>
    let groups := splitChar sep rest
    if c = sep then [] :: groups
    else
      match groups with
      | [] => [[c]]
      | g :: gs => (c :: g) :: gs

/-- Split a string at every occurrence of `sep`. -/
def pySplit (sep : Char) (s : String) : List String :=
  (splitChar sep s.toList).map (fun cs => ⟨cs⟩)

/-- Non-empty lines of a file's content. -/
def csvLines (content : String) : List String :=
  (pySplit '\n' content).filter (fun l => l ≠ "")

/-- Model of `pandas.read_csv`, restricted to the simple unquoted CSV the
pipeline writes: first line is the header, each further line one row; an
empty file raises `EmptyDataError`; a row whose field count differs from the
header raises a parser error. -/
def read_csv (content : String) : Except PdError (List String × List (List String)) :=
  match csvLines content with
  | [] => .error .emptyData
  | header :: data =>
    let cols := pySplit ',' header
    let rows := data.map (fun l => pySplit ',' l)
    if rows.all (fun r => r.length = cols.length) then .ok (cols, rows)
    else .error .parserError

/-- Model of `pandas.read_csv(path, nrows=0)` as used by
`validate_csv_structure`: only the header line is parsed, so malformed data
rows are not seen; an empty file still raises `EmptyDataError`. -/
def read_csv_header (content : String) : Except PdError (List String) :=
  match csvLines content with
  | [] => .error .emptyData
  | header :: _ => .ok (pySplit ',' header)

/-- The values of column `c` of a parsed CSV (header `cols`, rows `rows`),
as `df[c]` returns them (our model stores every cell as a string, which is
what `astype(str)` produces). -/
def colValues (cols : List String) (rows : List (List String)) (c : String) :
    List String :=
  match cols.findIdx? (fun x => x == c) with
  | some i => rows.map (fun r => r.getD i "")
  | none => []

/-- `src/data_processor.py` lines 45–69: `get_existing_hashes`.  The store
argument is `none` when `os.path.exists` is false; every reader exception
(`FileNotFoundError`, `EmptyDataError`, or any other) is caught and degrades
to the empty set. -/
def get_existing_hashes (store : Option String) : Finset String :=
  match store with
  | none => ∅
  | some content =>
    match read_csv content with
    | .error _ => ∅
    | .ok (cols, rows) =>
      if "transaction_hash" ∈ cols then (colValues cols rows "transaction_hash").toFinset
      else ∅

/-- The persisted column set of `validate_csv_structure` lines 165–169, in
the order of the record dictionary (which is the order pandas writes). -/
def expected_columns : List String :=
  ["transaction_hash", "source_file", "account_holder", "bank_name",
   "account_number", "sort_code", "statement_period", "transaction_date",
   "description", "debit", "credit", "balance", "reference"]

/-- CSV rendering of an optional float cell: pandas writes `NaN`/`None`
cells as empty, a float as its `str`. -/
def csvOptFloat : Option PyFloat → String
  | none => ""
  | some f => f.str

/-- CSV rendering of an optional string cell: empty when absent. -/
def csvOptStr : Option String → String
  | none => ""
  | some s => s

/-- Join strings with a separator (as `",".join(...)` does). -/
def joinSep (sep : String) : List String → String
  | [] => ""
  | [x] => x
  | x :: xs => x ++ sep ++ joinSep sep xs

/-- One CSV line of a ledger record, fields in `expected_columns` order. -/
def csvLine (r : LedgerRecord) : String :=
  joinSep ","
    [r.transaction_hash, r.source_file, r.account_holder, r.bank_name,
     r.account_number, r.sort_code, r.statement_period, r.transaction_date,
     r.description, csvOptFloat r.debit, csvOptFloat r.credit,
     csvOptFloat r.balance, csvOptStr r.reference]

/-- The header line pandas writes for the record dictionaries. -/
def headerLine : String := joinSep "," expected_columns

/-- `src/data_processor.py` lines 72–103: `append_to_csv`, as a function of
the store cell at the output path (directory creation is outside the
modelled state).  An empty record list returns before touching the file;
otherwise the rows are appended, with a header exactly when the file was
missing or empty (`os.path.getsize == 0`). -/
def append_to_csv (records : List LedgerRecord) (store : Option String) :
    Option String :=
  if records.isEmpty then store
  else
    let file_exists : Bool :=
      match store with
      | some c => decide (c.length > 0)
      | none => false
    let body := String.join (records.map (fun r => csvLine r ++ "\n"))
    let written := if file_exists then body else headerLine ++ "\n" ++ body
    match store with
    | some c => some (c ++ written)
    | none => some written

/-- Byte length of the store cell (`os.path.getsize`; 0 when absent). -/
def storeBytes : Option String → Nat
  | none => 0
  | some c => c.length

/-- Number of data rows of the store cell (0 when absent or unreadable). -/
def storeRowCount (store : Option String) : Nat :=
  match store with
  | none => 0
  | some c =>
    match read_csv c with
    | .ok (_, rows) => rows.length
    | .error _ => 0

/-! ## Deduplicating ingest (`convert_statement_to_records`) -/

/-- The record dictionary built in `convert_statement_to_records`
lines 133–147. -/
def mkRecord (statement : BankStatement) (source_filename : String)
    (t : Transaction) (tx_hash : String) : LedgerRecord :=
  { transaction_hash := tx_hash
    source_file := source_filename
    account_holder := statement.account_holder_name
    bank_name := statement.bank_name
    account_number := statement.account_number
    sort_code := statement.sort_code
    statement_period := statement.statement_period
    transaction_date := t.date
    description := t.description
    debit := t.debit
    credit := t.credit
    balance := t.balance
    reference := t.reference }

/-- The loop of `convert_statement_to_records` lines 124–151, with the
mutable `existing_hashes` set threaded explicitly: skip a transaction whose
hash is already known, otherwise emit its record and add the hash at once
(deduplicating repeats within the same batch). -/
def convertLoop (statement : BankStatement) (source_filename : String) :
    List Transaction → Finset String → List LedgerRecord × Finset String
  | [], existing_hashes => ([], existing_hashes)
  | t :: rest, existing_hashes =>
    let tx_hash := create_transaction_hash statement.account_number t
    if tx_hash ∈ existing_hashes then
      convertLoop statement source_filename rest existing_hashes
    else
      let res := convertLoop statement source_filename rest (insert tx_hash existing_hashes)
      (mkRecord statement source_filename t tx_hash :: res.1, res.2)

/-- `src/data_processor.py` lines 106–152: `convert_statement_to_records`.
Returns the emitted records together with the final (mutated) hash set. -/
def convert_statement_to_records (statement : BankStatement)
    (source_filename : String) (existing_hashes : Finset String) :
    List LedgerRecord × Finset String :=
  convertLoop statement source_filename statement.transactions existing_hashes

/-! ## Store validation and summary -/

/-- `src/data_processor.py` lines 155–181: `validate_csv_structure`.  A
missing store is valid; otherwise the header is read with `nrows=0` and the
expected columns must be a subset of the actual ones; any reader exception
makes the store invalid. -/
def validate_csv_structure (store : Option String) : Bool :=
  match store with
  | none => true
  | some content =>
    match read_csv_header content with
    | .ok cols => expected_columns.all (fun c => cols.contains c)
    | .error _ => false

/-- The `date_range` sub-dictionary of `get_csv_summary`. -/
structure DateRange where
  earliest : Option String
  latest : Option String
deriving DecidableEq

/-- The summary dictionary of `get_csv_summary`; `date_range` is `none`
exactly when the key is absent (the missing-store branch). -/
structure CsvSummary where
  total_transactions : Nat
  unique_accounts : Nat
  banks : List String
  date_range : Option DateRange
deriving DecidableEq

/-- Result of `get_csv_summary`: the summary dictionary, or the
`{"error": ...}` dictionary from the exception handler. -/
inductive SummaryResult where
  | ok (s : CsvSummary)
  | error (e : PdError)
deriving DecidableEq

/-- First-seen-order deduplication, as `pandas.Series.unique` returns. -/
def uniqueList (l : List String) : List String :=
  l.foldl (fun acc x => if acc.contains x then acc else acc ++ [x]) []

/-- Minimum of a string column (`Series.min`); `none` on an empty column. -/
def colMin : List String → Option String
  | [] => none
  | x :: xs => some (xs.foldl (fun a b => if b < a then b else a) x)

/-- Maximum of a string column (`Series.max`); `none` on an empty column. -/
def colMax : List String → Option String
  | [] => none
  | x :: xs => some (xs.foldl (fun a b => if b > a then b else a) x)

/-- `src/data_processor.py` lines 184–214: `get_csv_summary`. -/
def get_csv_summary (store : Option String) : SummaryResult :=
  match store with
  | none => .ok ⟨0, 0, [], none⟩
  | some content =>
    match read_csv content with
    | .error e => .error e
    | .ok (cols, rows) =>
      .ok ⟨rows.length,
           if cols.contains "account_number" then
             (uniqueList (colValues cols rows "account_number")).length
           else 0,
           if cols.contains "bank_name" then uniqueList (colValues cols rows "bank_name")
           else [],
           some ⟨if cols.contains "transaction_date" then
                   colMin (colValues cols rows "transaction_date")
                 else none,
                 if cols.contains "transaction_date" then
                   colMax (colValues cols rows "transaction_date")
                 else none⟩⟩

/-! ## Per-file processing (`src/main.py`, `process_single_pdf`) -/

/-- A raised Python exception, reduced to what the handler reports:
`str(e)` and `type(e).__name__`. -/
structure PyExc where
  message : String
  excType : String
deriving DecidableEq

/-- The result dictionary of `process_single_pdf`: `status` is `"success"`
with the extracted statement, or `"error"` with the exception's message and
type name. -/
inductive ProcessResult where
  | success (filename : String) (statement : BankStatement)
  | error (filename : String) (message : String) (excType : String)
deriving DecidableEq

/-- The body of the `try` block of `process_single_pdf` lines 134–169: text
extraction and the AI call are external collaborators, modelled by their
outcome (`Except` a raised exception); insufficient extracted text raises
`PDFProcessingError("Insufficient text extracted from PDF")`. -/
def processBody (extract_text : Except PyExc String)
    (extract_llm : String → Except PyExc BankStatement) :
    Except PyExc BankStatement :=
  match extract_text with
  | .error e => .error e
  | .ok raw_text =>
    if raw_text = "" || (pyStrip raw_text).length < 50 then
      .error ⟨"Insufficient text extracted from PDF", "PDFProcessingError"⟩
    else
      extract_llm raw_text

/-- `src/main.py` lines 120–185: `process_single_pdf`.  The `except` clause
catches every exception from the body and turns it into an error result. -/
def process_single_pdf (filename : String) (extract_text : Except PyExc String)
    (extract_llm : String → Except PyExc BankStatement) : ProcessResult :=
  match processBody extract_text extract_llm with
  | .ok statement_data => .success filename statement_data
  | .error e => .error filename e.message e.excType

/-! ## Concrete inputs used by the witnesses -/

/-- A minimal transaction. -/
def txSmallA : Transaction := ⟨"d1", "x", none, none, none, none⟩

/-- A second minimal transaction with a different fingerprint. -/
def txSmallB : Transaction := ⟨"d2", "y", none, none, none, none⟩

/-- A transaction whose description needs case/whitespace normalisation. -/
def txNorm1 : Transaction := ⟨"d", " X ", none, none, none, none⟩

/-- Same identity as `txNorm1` after normalisation: description already
normalised, balance recorded as `0.0`, reference present but empty. -/
def txNorm2 : Transaction := ⟨"d", "x", none, none, some pyZero, some ""⟩

/-- A transaction with no recorded balance. -/
def txBalNone : Transaction := ⟨"d", "x", none, none, none, none⟩

/-- The same transaction with balance exactly `0.0`. -/
def txBalZero : Transaction := ⟨"d", "x", none, none, some pyZero, none⟩

/-- A statement whose transaction list repeats its first transaction. -/
def stRepeat : BankStatement := ⟨"h", "b", "acc", "sc", "p", [txSmallA, txSmallB, txSmallA]⟩

/-- A one-transaction statement. -/
def stSingle : BankStatement := ⟨"h", "b", "acc", "sc", "p", [txSmallA]⟩

/-- A parseable store containing one row and the fingerprint column. -/
def storeWithHash : String := "transaction_hash\nabc"

/-- A parseable store with one data row but no fingerprint column. -/
def storeNoHash : String := "a,b\n1,2"

/-- A parseable store missing most of the required columns. -/
def storePartialHeader : String := "source_file\nabc"

/-- A store whose header is exactly the required column set. -/
def storeFullHeader : String := headerLine ++ "\n"

/-- A stub AI collaborator that always raises. -/
def llmStub : String → Except PyExc BankStatement :=
  fun _ => Except.error ⟨"boom", "ValueError"⟩

/-! ## Helper lemmas -/

/-- Each byte renders as exactly two hex characters. -/
theorem length_flatten_byteHex (bs : List Nat) :
    ((bs.map byteHex).flatten).length = 2 * bs.length := by
  induction bs with
  | nil => simp
  | cons b bs ih => simp [byteHex, ih]; omega

/-- A SHA-256 digest has exactly 32 bytes. -/
theorem sha256Bytes_length (msg : List Nat) : (sha256Bytes msg).length = 32 := by
  simp [sha256Bytes, wordBytes]

/-- A SHA-256 hexdigest has exactly 64 characters. -/
theorem sha256Hex_length (s : String) : (sha256Hex s).length = 64 := by
  show ((sha256Bytes (strUtf8 s)).map byteHex).flatten.length = 64
  rw [length_flatten_byteHex, sha256Bytes_length]

/-- Indexing the hex-digit table below 16 lands in the table. -/
theorem hexDigits_getD_mem : ∀ i < 16, hexDigits.getD i '0' ∈ hexDigits := by decide

/-- Every character of a byte's hex rendering is a lowercase hex digit. -/
theorem byteHex_mem {c : Char} {b : Nat} (hc : c ∈ byteHex b) : c ∈ hexDigits := by
  simp only [byteHex, List.mem_cons, List.not_mem_nil, or_false] at hc
  rcases hc with h | h <;> subst h <;>
    exact hexDigits_getD_mem _ (Nat.mod_lt _ (by omega))

/-- Every character of a hexdigest is a lowercase hex digit. -/
theorem hexdigest_chars {bs : List Nat} {c : Char}
    (hc : c ∈ (hexdigest bs).toList) : c ∈ hexDigits := by
  have hc' : c ∈ ((bs.map byteHex).flatten) := hc
  rcases List.mem_flatten.mp hc' with ⟨l, hl, hcl⟩
  rcases List.mem_map.mp hl with ⟨b, _, rfl⟩
  exact byteHex_mem hcl

/-- If the known set is grown to a set that covers it and every record the
loop emitted from it, the loop emits nothing. -/
theorem convertLoop_covered_nil (statement : BankStatement) (source : String) :
    ∀ (ts : List Transaction) (S T : Finset String), S ⊆ T →
      (∀ r ∈ (convertLoop statement source ts S).1, r.transaction_hash ∈ T) →
      (convertLoop statement source ts T).1 = [] := by
  intro ts
  induction ts with
  | nil => intro S T _ _; rfl
  | cons t rest ih =>
    intro S T hST hout
    by_cases h1 : create_transaction_hash statement.account_number t ∈ S
    · have hTT : create_transaction_hash statement.account_number t ∈ T := hST h1
      simp only [convertLoop, if_pos h1] at hout
      simp only [convertLoop, if_pos hTT]
      exact ih S T hST hout
    · simp only [convertLoop, if_neg h1, List.mem_cons] at hout
      have hTT : create_transaction_hash statement.account_number t ∈ T := by
        have := hout _ (Or.inl rfl)
        simpa [mkRecord] using this
      simp only [convertLoop, if_pos hTT]
      refine ih (insert (create_transaction_hash statement.account_number t) S) T ?_ ?_
      · intro x hx
        rcases Finset.mem_insert.mp hx with h | h
        · exact h ▸ hTT
        · exact hST h
      · intro r hr
        exact hout r (Or.inr hr)

/-! ## Claim theorems -/

/-- **C1.** For a statement with transaction list `[A, B, A]` (the repeat
not colliding with `B`'s fingerprint) ingested against an empty known set,
`convert_statement_to_records` emits exactly one record for the repeated
transaction, in first-occurrence order `[A, B]`, and afterwards the mutated
set contains both fingerprints. -/
theorem ingest_dedups_repeat_within_statement
    (holder bank acct sc period source : String) (A B : Transaction)
    (hAB : create_transaction_hash acct A ≠ create_transaction_hash acct B) :
    (convert_statement_to_records ⟨holder, bank, acct, sc, period, [A, B, A]⟩ source ∅).1 =
      [mkRecord ⟨holder, bank, acct, sc, period, [A, B, A]⟩ source A
         (create_transaction_hash acct A),
       mkRecord ⟨holder, bank, acct, sc, period, [A, B, A]⟩ source B
         (create_transaction_hash acct B)] ∧
    create_transaction_hash acct A ∈
      (convert_statement_to_records ⟨holder, bank, acct, sc, period, [A, B, A]⟩ source ∅).2 ∧
    create_transaction_hash acct B ∈
      (convert_statement_to_records ⟨holder, bank, acct, sc, period, [A, B, A]⟩ source ∅).2 := by
  simp [convert_statement_to_records, convertLoop, hAB, Ne.symm hAB]

set_option maxRecDepth 100000 in
/-- Witness for C1: two concrete transactions with distinct fingerprints. -/
theorem ingest_dedups_repeat_witness :
    create_transaction_hash "acc" txSmallA ≠ create_transaction_hash "acc" txSmallB ∧
    (convert_statement_to_records stRepeat "f.pdf" ∅).1 =
      [mkRecord stRepeat "f.pdf" txSmallA (create_transaction_hash "acc" txSmallA),
       mkRecord stRepeat "f.pdf" txSmallB (create_transaction_hash "acc" txSmallB)] ∧
    create_transaction_hash "acc" txSmallA ∈ (convert_statement_to_records stRepeat "f.pdf" ∅).2 ∧
    create_transaction_hash "acc" txSmallB ∈ (convert_statement_to_records stRepeat "f.pdf" ∅).2 := by
  have h := ingest_dedups_repeat_within_statement "h" "b" "acc" "sc" "p" "f.pdf"
    txSmallA txSmallB (by decide)
  exact ⟨by decide, h.1, h.2.1, h.2.2⟩

set_option maxRecDepth 100000 in
/-- **C2 (counterexample).** The claim as stated fails: run
`convert_statement_to_records` on a one-transaction statement whose
fingerprint is already known (`S` = that fingerprint); the first run emits
no records, so the empty set contains every fingerprint of the first run's
output, yet a second run against the empty set emits a record. -/
theorem ingest_idempotence_claim_fails :
    (convert_statement_to_records stSingle "f.pdf"
       {create_transaction_hash "acc" txSmallA}).1 = [] ∧
    (convert_statement_to_records stSingle "f.pdf" (∅ : Finset String)).1 ≠ [] := by
  decide

/-- **C2 (amended).** If the second run's fingerprint set contains every
fingerprint of the first run's output *and every element of the first run's
starting set `S`* (as a reload from the store after a commit does), the
second run returns the empty record list. -/
theorem ingest_idempotent_after_reload (statement : BankStatement) (source : String)
    (S T : Finset String) (hS : S ⊆ T)
    (hout : ∀ r ∈ (convert_statement_to_records statement source S).1,
      r.transaction_hash ∈ T) :
    (convert_statement_to_records statement source T).1 = [] :=
  convertLoop_covered_nil statement source statement.transactions S T hS hout

set_option maxRecDepth 100000 in
/-- Witness for C2 (amended): a fresh one-transaction statement, first run
from the empty set, second run against the emitted fingerprint. -/
theorem ingest_idempotent_after_reload_witness :
    (convert_statement_to_records stSingle "f.pdf"
       {create_transaction_hash "acc" txSmallA}).1 = [] :=
  ingest_idempotent_after_reload stSingle "f.pdf" ∅
    {create_transaction_hash "acc" txSmallA} (by decide) (by decide)

/-- **C3.** The fingerprint is a deterministic function producing a
64-character lowercase-hex digest, and transactions agreeing on account
number, date, lowercased-and-stripped description, debit, credit, rendered
balance (missing ↦ `"0.0"`) and reference suffix (appended only when the
reference is non-empty) receive equal fingerprints. -/
theorem fingerprint_hex_and_congruence (acct : String) (t : Transaction) :
    ((create_transaction_hash acct t).length = 64 ∧
     ∀ c ∈ (create_transaction_hash acct t).toList, c ∈ hexDigits) ∧
    ∀ t1 t2 : Transaction, t1.date = t2.date →
      pyStrip (pyLower t1.description) = pyStrip (pyLower t2.description) →
      t1.debit = t2.debit → t1.credit = t2.credit →
      balanceStr t1 = balanceStr t2 → referenceSuffix t1 = referenceSuffix t2 →
      create_transaction_hash acct t1 = create_transaction_hash acct t2 := by
  refine ⟨⟨sha256Hex_length _, fun c hc => hexdigest_chars hc⟩, ?_⟩
  intro t1 t2 h1 h2 h3 h4 h5 h6
  simp only [create_transaction_hash, h1, h2, h3, h4, h5, h6]

/-- Witness for C3: a raw and a pre-normalised description, absent balance
against recorded `0.0`, and absent reference against an empty one. -/
theorem fingerprint_hex_and_congruence_witness :
    create_transaction_hash "a" txNorm1 = create_transaction_hash "a" txNorm2 :=
  (fingerprint_hex_and_congruence "a" txNorm1).2 txNorm1 txNorm2 rfl (by decide)
    rfl rfl (by decide) (by decide)

/-- **C4.** For transactions agreeing on date, description, debit, credit
and reference, one with no balance and one with balance exactly `0.0`, the
fingerprints coincide. -/
theorem fingerprint_balance_zero_quirk (acct : String) (t1 t2 : Transaction)
    (hdate : t1.date = t2.date) (hdesc : t1.description = t2.description)
    (hdebit : t1.debit = t2.debit) (hcredit : t1.credit = t2.credit)
    (href : t1.reference = t2.reference)
    (hb1 : t1.balance = none) (hb2 : t2.balance = some pyZero) :
    create_transaction_hash acct t1 = create_transaction_hash acct t2 := by
  simp only [create_transaction_hash, balanceStr, referenceSuffix, hdate, hdesc,
    hdebit, hcredit, href, hb1, hb2, pyZero]

/-- Witness for C4. -/
theorem fingerprint_balance_zero_quirk_witness :
    create_transaction_hash "a" txBalNone = create_transaction_hash "a" txBalZero :=
  fingerprint_balance_zero_quirk "a" txBalNone txBalZero rfl rfl rfl rfl rfl rfl rfl

/-- **C5.** `get_existing_hashes` is total (every reader exception is
caught): a missing store, or any store the reader fails on (empty or
unparseable), yields the empty set; a parseable store with the fingerprint
column yields the set of its fingerprints. -/
theorem load_known_fingerprints_spec (store : Option String) :
    (store = none → get_existing_hashes store = ∅) ∧
    (∀ c e, store = some c → read_csv c = .error e → get_existing_hashes store = ∅) ∧
    (∀ c cols rows, store = some c → read_csv c = .ok (cols, rows) →
      "transaction_hash" ∈ cols →
      get_existing_hashes store = (colValues cols rows "transaction_hash").toFinset) := by
  refine ⟨fun h => by subst h; rfl, ?_, ?_⟩
  · intro c e hc hread; subst hc
    simp [get_existing_hashes, hread]
  · intro c cols rows hc hread hcol; subst hc
    simp [get_existing_hashes, hread, hcol]

/-- Witness for C5: a missing store, an empty store, and a one-row store
with the fingerprint column. -/
theorem load_known_fingerprints_witness :
    get_existing_hashes none = ∅ ∧
    get_existing_hashes (some "") = ∅ ∧
    get_existing_hashes (some storeWithHash) =
      (colValues ["transaction_hash"] [["abc"]] "transaction_hash").toFinset :=
  ⟨(load_known_fingerprints_spec none).1 rfl,
   (load_known_fingerprints_spec (some "")).2.1 "" .emptyData rfl rfl,
   (load_known_fingerprints_spec (some storeWithHash)).2.2 storeWithHash
     ["transaction_hash"] [["abc"]] rfl rfl (by decide)⟩

/-- **C6.** Appending an empty record list is a no-op: the store cell, its
byte length and its row count are unchanged, and a missing store is not
created. -/
theorem append_empty_noop (store : Option String) :
    append_to_csv [] store = store ∧
    storeBytes (append_to_csv [] store) = storeBytes store ∧
    storeRowCount (append_to_csv [] store) = storeRowCount store ∧
    (store = none → append_to_csv [] store = none) := by
  have h : append_to_csv [] store = store := by simp [append_to_csv]
  exact ⟨h, by rw [h], by rw [h], fun hs => by rw [h, hs]⟩

/-- Witness for C6: appending nothing to a missing store leaves it missing. -/
theorem append_empty_noop_witness : append_to_csv [] none = none :=
  (append_empty_noop none).2.2.2 rfl

/-- **C7.** `validate_csv_structure` accepts a missing store; accepts a
parseable store whose header contains all required columns (supersets
allowed); rejects a parseable store missing a required column; rejects a
store the header reader fails on. -/
theorem validate_structure_spec :
    validate_csv_structure none = true ∧
    (∀ c cols, read_csv_header c = .ok cols →
      (∀ col ∈ expected_columns, col ∈ cols) →
      validate_csv_structure (some c) = true) ∧
    (∀ c cols col, read_csv_header c = .ok cols → col ∈ expected_columns →
      col ∉ cols → validate_csv_structure (some c) = false) ∧
    (∀ c e, read_csv_header c = .error e → validate_csv_structure (some c) = false) := by
  refine ⟨rfl, ?_, ?_, ?_⟩
  · intro c cols hread hsub
    simp only [validate_csv_structure, hread, List.all_eq_true]
    intro col hcol
    exact List.elem_eq_true_of_mem (hsub col hcol)
  · intro c cols col hread hcol hnot
    simp only [validate_csv_structure, hread, List.all_eq_false]
    refine ⟨col, hcol, ?_⟩
    cases hx : cols.contains col with
    | false => simp
    | true => exact absurd (List.mem_of_elem_eq_true hx) hnot
  · intro c e hread
    simp [validate_csv_structure, hread]

set_option maxRecDepth 100000 in
/-- Witness for C7: missing store, exact required header, a header missing
the fingerprint column, and an empty file. -/
theorem validate_structure_witness :
    validate_csv_structure none = true ∧
    validate_csv_structure (some storeFullHeader) = true ∧
    validate_csv_structure (some storePartialHeader) = false ∧
    validate_csv_structure (some "") = false :=
  ⟨validate_structure_spec.1,
   validate_structure_spec.2.1 storeFullHeader expected_columns rfl (by decide),
   validate_structure_spec.2.2.1 storePartialHeader ["source_file"] "transaction_hash"
     rfl (by decide) (by decide),
   validate_structure_spec.2.2.2 "" .emptyData rfl⟩

/-- **C8.** A missing store summarises to the all-zero/empty summary: zero
records, zero distinct accounts, no bank names, and no date-range fields. -/
theorem summary_absent_store : get_csv_summary none = .ok ⟨0, 0, [], none⟩ := rfl

/-- **C9.** Per-file processing never propagates an exception: the result is
`success` with the statement or `error` with the raised exception's message
and type name; extracted text that is empty or under 50 characters once
stripped yields the `PDFProcessingError` result for that file. -/
theorem process_single_pdf_isolation (filename : String) (ext : Except PyExc String)
    (llm : String → Except PyExc BankStatement) :
    ((∃ st, process_single_pdf filename ext llm = .success filename st) ∨
     (∃ m ty, process_single_pdf filename ext llm = .error filename m ty)) ∧
    (∀ raw, ext = .ok raw → (raw = "" ∨ (pyStrip raw).length < 50) →
      process_single_pdf filename ext llm =
        .error filename "Insufficient text extracted from PDF" "PDFProcessingError") := by
  constructor
  · cases h : processBody ext llm with
    | ok st => exact .inl ⟨st, by simp [process_single_pdf, h]⟩
    | error e => exact .inr ⟨e.message, e.excType, by simp [process_single_pdf, h]⟩
  · intro raw hraw hshort
    subst hraw
    have hcond : (decide (raw = "") || decide ((pyStrip raw).length < 50)) = true := by
      rcases hshort with h | h
      · simp [h]
      · simp [h]
    simp [process_single_pdf, processBody, hcond]

/-- Witness for C9: a file whose extracted text is too short. -/
theorem process_single_pdf_isolation_witness :
    process_single_pdf "f.pdf" (Except.ok "short text") llmStub =
      .error "f.pdf" "Insufficient text extracted from PDF" "PDFProcessingError" :=
  (process_single_pdf_isolation "f.pdf" (Except.ok "short text") llmStub).2
    "short text" rfl (Or.inr (by decide))

/-- **C10.** A parseable store lacking the `transaction_hash` column reads
as no known fingerprints, even when it contains data rows. -/
theorem missing_fingerprint_column_reads_empty (c : String) (cols : List String)
    (rows : List (List String)) (hread : read_csv c = .ok (cols, rows))
    (hcol : "transaction_hash" ∉ cols) (hrows : rows ≠ []) :
    get_existing_hashes (some c) = ∅ := by
  simp [get_existing_hashes, hread, hcol]

/-- Witness for C10: a two-column store with one data row and no
fingerprint column. -/
theorem missing_fingerprint_column_witness :
    get_existing_hashes (some storeNoHash) = ∅ :=
  missing_fingerprint_column_reads_empty storeNoHash ["a", "b"] [["1", "2"]] rfl
    (by decide) (by decide)
